import Mathlib

/-!
Shallow embedding of astroplan/plots/sky.py, the single-function module
exporting plot_sky.  Angles are modelled as exact rationals; the plot
surface (a matplotlib polar Axes) is modelled as a record of the
attributes the function mutates; the observer altitude/azimuth
capability is an oracle function that may fail; warnings are collected
as a list of message strings; every call to the oracle is logged so
that call-count claims can be stated.
-/

set_option autoImplicit false

namespace SkyPlot

/-- A time instant, kept opaque as its string form (astropy Time values
are only indexed and formatted by this code, never inspected). -/
abbrev Tm := String

/-- A celestial target: name is none when the object has no name
attribute (the hasattr check in the source). -/
structure Target where
  name : Option String

/-- Result of one observer.altaz call: altitude and azimuth in degrees,
one entry per time sample. -/
structure AltAz where
  alt : List ℚ
  az : List ℚ

/-- The observer, reduced to its altaz capability; failures are
modelled with Except. -/
structure Observer where
  altaz : List Tm → Target → Except String AltAz

/-- The time argument: a scalar Time or an array Time. -/
inductive TimeArg where
  | scalar (t : Tm)
  | array (ts : List Tm)

/-- Lines 107-109: Time(time); if time.isscalar: time = Time([time]). -/
def normalizeTime : TimeArg → List Tm
  | .scalar t => [t]
  | .array ts => ts

/-- The style keyword dictionary, reduced to the two keys the function
itself touches (marker and label defaults); other keys pass through
untouched and are irrelevant to every claim. -/
structure Style where
  marker : Option String := none
  label : Option String := none

/-- The polar Axes object: the attributes plot_sky mutates.  A fresh
matplotlib polar axes starts with counterclockwise theta direction
(thetaDir = 1) and no data. -/
structure Axes where
  thetaZeroLoc : Option String := none
  thetaDir : Int := 1
  scatterData : List (List ℚ × List ℚ × Style) := []
  rlim : Option (ℚ × ℚ) := none
  gridOn : Option Bool := none
  rgridPos : Option (List ℕ) := none
  rgridLabels : Option (List String) := none
  rgridAngle : Option ℚ := none
  thetagridPos : Option (List ℕ) := none
  thetagridLabels : Option (List String) := none
  drawCount : ℕ := 0

/-- The value of np.pi as used on line 116 (the IEEE double). -/
def npPi : ℚ := 3.141592653589793

/-- Line 116: az * (1/u.deg) * (np.pi/180.0). -/
def degToRad (x : ℚ) : ℚ := x * (npPi / 180)

/-- Line 114: (91*u.deg - alt) * (1/u.deg). -/
def radialTransform (altDeg : ℚ) : ℚ := 91 - altDeg

/-- Lines 119-122: target_name is the empty string when the target has
no name attribute. -/
def targetNameOf (t : Target) : String := t.name.getD ""

/-- Line 131: target_name if target_name else the Unknown Name fallback. -/
def warnName (target_name : String) : String :=
  if target_name = "" then "Unknown Name" else target_name

/-- Line 129: the warning message format string, instantiated. -/
def belowHorizonMsg (nm : String) (t : Tm) : String :=
  "Warning: Target \"" ++ nm ++ "\" is below the horizon at time: " ++ t

/-- One iteration of the loop on lines 127-137: warn on a transformed
altitude above 91, otherwise append the azimuth to az_plot (which is
None until the first kept sample). -/
def horizonStep (nm : String) (times : List Tm) (altitude azimuth : List ℚ)
    (acc : List String × Option (List ℚ)) (i : ℕ) :
    List String × Option (List ℚ) :=
  if 91 < altitude.getD i 0 then
    (acc.1 ++ [belowHorizonMsg nm (times.getD i "")], acc.2)
  else
    match acc.2 with
    | none => (acc.1, some [azimuth.getD i 0])
    | some l => (acc.1, some (l ++ [azimuth.getD i 0]))

/-- The loop on lines 126-137 over range(0, len(altitude)). -/
def horizonLoop (nm : String) (times : List Tm) (altitude azimuth : List ℚ) :
    List String × Option (List ℚ) :=
  (List.range altitude.length).foldl (horizonStep nm times altitude azimuth)
    ([], none)

/-- Lines 179-180: while label_angle >= 360.0: label_angle -= 360.0. -/
def wrap360 (x : ℚ) : ℚ :=
  if 360 ≤ x then wrap360 (x - 360) else x
termination_by (⌈x / 360⌉).toNat
decreasing_by
  have h0 : (0 : ℚ) < x / 360 := by
    have : (0 : ℚ) < x := by linarith
    positivity
  have h1 : (1 : ℤ) ≤ ⌈x / 360⌉ := Int.one_le_ceil_iff.mpr h0
  have h2 : (x - 360) / 360 = x / 360 - 1 := by ring
  have h3 : ⌈(x - 360) / 360⌉ = ⌈x / 360⌉ - 1 := by
    rw [h2, Int.ceil_sub_one]
  omega

/-- Line 178 followed by the while loop: the normalized tick-label
angle for a given chunk index. -/
def labelAngle (offset : ℚ) (chunk : ℕ) : ℚ :=
  wrap360 (offset + (chunk : ℚ) * 45)

/-- Line 162: the degree sign. -/
def degSign : String := "°"

/-- Lines 181-191: the formatted azimuth tick label for one chunk. -/
def thetaLabel (offset : ℚ) (chunk : ℕ) : String :=
  let a := labelAngle offset chunk
  if chunk = 0 then "N " ++ "\n" ++ toString a ++ degSign ++ " Az"
  else if chunk = 2 then "E" ++ "\n" ++ toString a ++ degSign
  else if chunk = 4 then "S" ++ "\n" ++ toString a ++ degSign
  else if chunk = 6 then "W" ++ "\n" ++ toString a ++ degSign
  else toString a ++ degSign

/-- Lines 166-174: the seven fixed radial tick labels. -/
def r_labels : List String :=
  ["90" ++ degSign, "", "60" ++ degSign, "", "30" ++ degSign, "",
   "0" ++ degSign ++ " Alt."]

/-- Python range(start, stop, step) for positive step. -/
def pyRange (start stop step : ℕ) : List ℕ :=
  List.range' start ((stop - start + step - 1) / step) step

/-- What a call to plot_sky leaves behind: the axes object as mutated,
the warnings emitted, the argument of every observer.altaz invocation
in order, and the propagated failure if any (none = normal return of
the axes). -/
structure RenderResult where
  ax : Axes
  warnings : List String
  altazLog : List (List Tm)
  err : Option String

/-- The function plot_sky of astroplan/plots/sky.py, lines 98-204,
with matplotlib and warning emission made explicit state.  Defaults of
the source signature: ax=None, style_kwargs=None,
north_to_east_ccw=True, grid=True, az_label_offset=0. -/
def plot_sky (target : Target) (observer : Observer) (time : TimeArg)
    (axArg : Option Axes) (style_kwargs : Option Style)
    (north_to_east_ccw : Bool) (grid : Bool) (az_label_offset : ℚ) :
    RenderResult :=
  -- lines 99-104
  let ax := axArg.getD {}
  let sk0 := style_kwargs.getD {}
  let sk1 : Style := { sk0 with marker := some (sk0.marker.getD "o") }
  -- lines 107-109
  let times := normalizeTime time
  -- line 114: first observer.altaz call, for altitude
  match observer.altaz times target with
  | .error e => { ax := ax, warnings := [], altazLog := [times], err := some e }
  | .ok aaAlt =>
    let altitude := aaAlt.alt.map radialTransform
    -- line 116: second observer.altaz call, for azimuth
    match observer.altaz times target with
    | .error e =>
      { ax := ax, warnings := [], altazLog := [times, times], err := some e }
    | .ok aaAz =>
      let azimuth := aaAz.az.map degToRad
      -- lines 119-123
      let target_name := targetNameOf target
      let sk : Style := { sk1 with label := some (sk1.label.getD target_name) }
      -- lines 126-140
      let lp := horizonLoop (warnName target_name) times altitude azimuth
      let az_plot := lp.2.getD []
      let alt_plot := altitude.filter (fun a => decide (a ≤ 91))
      -- line 144
      let ax := { ax with thetaZeroLoc := some "N" }
      -- lines 147-148
      let ax := if north_to_east_ccw = false then
        { ax with thetaDir := -1 } else ax
      -- line 151
      let ax := { ax with scatterData := ax.scatterData ++ [(az_plot, alt_plot, sk)] }
      -- line 154
      let ax := { ax with rlim := some (1, 91) }
      -- lines 158-161
      let ax := if grid = true then { ax with gridOn := some true } else ax
      let ax := if grid = false then { ax with gridOn := some false } else ax
      -- lines 176-191
      let theta_labels := (List.range 7).map (thetaLabel az_label_offset)
      -- line 194
      let ax := { ax with rgridPos := some (pyRange 1 106 15),
                          rgridLabels := some r_labels,
                          rgridAngle := some (-45) }
      -- line 195
      let ax := { ax with thetagridPos := some (pyRange 0 360 45),
                          thetagridLabels := some theta_labels }
      -- line 202
      let ax := { ax with drawCount := ax.drawCount + 1 }
      { ax := ax, warnings := lp.1, altazLog := [times, times], err := none }

/-- The style dictionary as it reaches the scatter call: marker
defaulted to a circle, label defaulted to the target name. -/
def resolvedStyle (style_kwargs : Option Style) (target : Target) : Style :=
  let sk0 := style_kwargs.getD {}
  let sk1 : Style := { sk0 with marker := some (sk0.marker.getD "o") }
  { sk1 with label := some (sk1.label.getD (targetNameOf target)) }

/-- Appending kept azimuths to the az_plot accumulator, which stays
None while nothing has been kept. -/
def optAppend (o : Option (List ℚ)) (l : List ℚ) : Option (List ℚ) :=
  match o with
  | none => if l = [] then none else some l
  | some m => some (m ++ l)

/-- An observer whose single sample is above the horizon. -/
def obsUp : Observer := ⟨fun _ _ => .ok ⟨[45], [120]⟩⟩

/-- An observer whose single sample is below the horizon. -/
def obsDown : Observer := ⟨fun _ _ => .ok ⟨[-10], [200]⟩⟩

/-- An observer with one sample above and one below the horizon. -/
def obsMixed : Observer := ⟨fun _ _ => .ok ⟨[30, -5], [10, 250]⟩⟩

/-- An observer whose position computation fails. -/
def obsFail : Observer := ⟨fun _ _ => .error "unresolvable target"⟩

/-- A named target. -/
def tgtVega : Target := ⟨some "Vega"⟩

/-- A target without a name attribute. -/
def tgtAnon : Target := ⟨none⟩

/-- A reused surface previously configured clockwise. -/
def axClockwise : Axes := { thetaDir := -1 }

/-- A concrete scalar time argument. -/
def timA : TimeArg := .scalar "2000-01-01 00:00:00"

/-- A concrete two-sample time argument. -/
def timB : TimeArg := .array ["2000-01-01 20:00:00", "2000-01-01 20:30:00"]

/-- The altitude/azimuth data returned by obsUp. -/
def aaUp : AltAz := ⟨[45], [120]⟩

/-- The altitude/azimuth data returned by obsDown. -/
def aaDown : AltAz := ⟨[-10], [200]⟩

/-- The altitude/azimuth data returned by obsMixed. -/
def aaMixed : AltAz := ⟨[30, -5], [10, 250]⟩

/-! ### Characterization of the below-horizon loop -/

theorem foldl_horizonStep (nm : String) (times : List Tm)
    (altitude azimuth : List ℚ) (is : List ℕ) (ws : List String)
    (o : Option (List ℚ)) :
    is.foldl (horizonStep nm times altitude azimuth) (ws, o) =
      (ws ++ (is.filter (fun i => decide (91 < altitude.getD i 0))).map
          (fun i => belowHorizonMsg nm (times.getD i "")),
       optAppend o ((is.filter (fun i => !decide (91 < altitude.getD i 0))).map
          (fun i => azimuth.getD i 0))) := by
  induction is generalizing ws o with
  | nil => cases o <;> simp [optAppend]
  | cons i is ih =>
    by_cases h : (91 : ℚ) < altitude[i]?.getD 0
    · simp [List.foldl_cons, horizonStep, h, ih, List.filter_cons]
    · cases o with
      | none =>
        simp [List.foldl_cons, horizonStep, h, ih, List.filter_cons, optAppend]
      | some m =>
        simp [List.foldl_cons, horizonStep, h, ih, List.filter_cons, optAppend]

theorem horizonLoop_fst (nm : String) (times : List Tm)
    (altitude azimuth : List ℚ) :
    (horizonLoop nm times altitude azimuth).1 =
      ((List.range altitude.length).filter
          (fun i => decide (91 < altitude.getD i 0))).map
        (fun i => belowHorizonMsg nm (times.getD i "")) := by
  simp [horizonLoop, foldl_horizonStep]

theorem optAppend_none_getD (l : List ℚ) : (optAppend none l).getD [] = l := by
  cases l <;> simp [optAppend]

theorem horizonLoop_azplot (nm : String) (times : List Tm)
    (altitude azimuth : List ℚ) :
    (horizonLoop nm times altitude azimuth).2.getD [] =
      ((List.range altitude.length).filter
          (fun i => !decide (91 < altitude.getD i 0))).map
        (fun i => azimuth.getD i 0) := by
  rw [horizonLoop, foldl_horizonStep, optAppend_none_getD]

/-! ### Index bookkeeping for the mapped angle lists -/

theorem getD_map_of_lt (f : ℚ → ℚ) (l : List ℚ) (i : ℕ) (h : i < l.length) :
    (l.map f).getD i 0 = f (l.getD i 0) := by
  rw [List.getD_eq_getElem?_getD, List.getD_eq_getElem?_getD,
    List.getElem?_map, List.getElem?_eq_getElem h]
  simp

theorem getD_map_degToRad (l : List ℚ) (i : ℕ) :
    (l.map degToRad).getD i 0 = degToRad (l.getD i 0) := by
  rcases h : l[i]? with _ | a
  · simp [List.getD_eq_getElem?_getD, List.getElem?_map, h, degToRad]
  · simp [List.getD_eq_getElem?_getD, List.getElem?_map, h]

theorem filter_eq_map_filter_range (p : ℚ → Bool) (l : List ℚ) :
    l.filter p =
      ((List.range l.length).filter (fun i => p (l.getD i 0))).map
        (fun i => l.getD i 0) := by
  induction l with
  | nil => simp
  | cons x xs ih =>
    by_cases hx : p x <;>
      simp [List.range_succ_eq_map, List.filter_cons, hx, List.filter_map,
        List.map_map, Function.comp_def, List.getElem?_cons_succ,
        List.getD_cons_succ, List.getD_cons_zero, ih]

/-! ### The while loop normalizing label angles -/

theorem wrap360_lt (x : ℚ) : wrap360 x < 360 := by
  induction x using wrap360.induct with
  | case1 x h ih => rw [wrap360, if_pos h]; exact ih
  | case2 x h => rw [wrap360, if_neg h]; linarith

theorem wrap360_nonneg (x : ℚ) (hx : 0 ≤ x) : 0 ≤ wrap360 x := by
  induction x using wrap360.induct with
  | case1 x h ih =>
    rw [wrap360, if_pos h]
    exact ih (by linarith)
  | case2 x h => rwa [wrap360, if_neg h]

/-! ### Field-by-field description of a successful plot_sky call -/

theorem plot_sky_ok_err (target : Target) (observer : Observer) (time : TimeArg)
    (axArg : Option Axes) (skw : Option Style) (ccw grid : Bool) (off : ℚ)
    (aa : AltAz)
    (hok : observer.altaz (normalizeTime time) target = Except.ok aa) :
    (plot_sky target observer time axArg skw ccw grid off).err = none := by
  simp only [plot_sky]
  rw [hok]

theorem plot_sky_ok_log (target : Target) (observer : Observer) (time : TimeArg)
    (axArg : Option Axes) (skw : Option Style) (ccw grid : Bool) (off : ℚ)
    (aa : AltAz)
    (hok : observer.altaz (normalizeTime time) target = Except.ok aa) :
    (plot_sky target observer time axArg skw ccw grid off).altazLog =
      [normalizeTime time, normalizeTime time] := by
  simp only [plot_sky]
  rw [hok]

theorem plot_sky_ok_warnings (target : Target) (observer : Observer)
    (time : TimeArg) (axArg : Option Axes) (skw : Option Style)
    (ccw grid : Bool) (off : ℚ) (aa : AltAz)
    (hok : observer.altaz (normalizeTime time) target = Except.ok aa) :
    (plot_sky target observer time axArg skw ccw grid off).warnings =
      (horizonLoop (warnName (targetNameOf target)) (normalizeTime time)
        (aa.alt.map radialTransform) (aa.az.map degToRad)).1 := by
  simp only [plot_sky]
  rw [hok]

theorem plot_sky_ok_scatter (target : Target) (observer : Observer)
    (time : TimeArg) (axArg : Option Axes) (skw : Option Style)
    (ccw grid : Bool) (off : ℚ) (aa : AltAz)
    (hok : observer.altaz (normalizeTime time) target = Except.ok aa) :
    (plot_sky target observer time axArg skw ccw grid off).ax.scatterData =
      (axArg.getD {}).scatterData ++
        [((horizonLoop (warnName (targetNameOf target)) (normalizeTime time)
             (aa.alt.map radialTransform) (aa.az.map degToRad)).2.getD [],
          (aa.alt.map radialTransform).filter (fun a => decide (a ≤ 91)),
          resolvedStyle skw target)] := by
  simp only [plot_sky, resolvedStyle]
  rw [hok]
  cases ccw <;> cases grid <;> rfl

theorem plot_sky_ok_zeroloc (target : Target) (observer : Observer)
    (time : TimeArg) (axArg : Option Axes) (skw : Option Style)
    (ccw grid : Bool) (off : ℚ) (aa : AltAz)
    (hok : observer.altaz (normalizeTime time) target = Except.ok aa) :
    (plot_sky target observer time axArg skw ccw grid off).ax.thetaZeroLoc =
      some "N" := by
  simp only [plot_sky]
  rw [hok]
  cases ccw <;> cases grid <;> rfl

theorem plot_sky_ok_thetaDir_cw (target : Target) (observer : Observer)
    (time : TimeArg) (axArg : Option Axes) (skw : Option Style)
    (grid : Bool) (off : ℚ) (aa : AltAz)
    (hok : observer.altaz (normalizeTime time) target = Except.ok aa) :
    (plot_sky target observer time axArg skw false grid off).ax.thetaDir =
      -1 := by
  simp only [plot_sky]
  rw [hok]
  cases grid <;> rfl

theorem plot_sky_ok_thetaDir_ccw (target : Target) (observer : Observer)
    (time : TimeArg) (axArg : Option Axes) (skw : Option Style)
    (grid : Bool) (off : ℚ) (aa : AltAz)
    (hok : observer.altaz (normalizeTime time) target = Except.ok aa) :
    (plot_sky target observer time axArg skw true grid off).ax.thetaDir =
      (axArg.getD {}).thetaDir := by
  simp only [plot_sky]
  rw [hok]
  cases grid <;> rfl

theorem plot_sky_ok_rlim (target : Target) (observer : Observer)
    (time : TimeArg) (axArg : Option Axes) (skw : Option Style)
    (ccw grid : Bool) (off : ℚ) (aa : AltAz)
    (hok : observer.altaz (normalizeTime time) target = Except.ok aa) :
    (plot_sky target observer time axArg skw ccw grid off).ax.rlim =
      some (1, 91) := by
  simp only [plot_sky]
  rw [hok]
  cases ccw <;> cases grid <;> rfl

theorem plot_sky_ok_rgrids (target : Target) (observer : Observer)
    (time : TimeArg) (axArg : Option Axes) (skw : Option Style)
    (ccw grid : Bool) (off : ℚ) (aa : AltAz)
    (hok : observer.altaz (normalizeTime time) target = Except.ok aa) :
    (plot_sky target observer time axArg skw ccw grid off).ax.rgridPos =
        some (pyRange 1 106 15) ∧
      (plot_sky target observer time axArg skw ccw grid off).ax.rgridLabels =
        some r_labels ∧
      (plot_sky target observer time axArg skw ccw grid off).ax.rgridAngle =
        some (-45) := by
  refine ⟨?_, ?_, ?_⟩ <;> (simp only [plot_sky]; rw [hok])

theorem plot_sky_ok_thetagrids (target : Target) (observer : Observer)
    (time : TimeArg) (axArg : Option Axes) (skw : Option Style)
    (ccw grid : Bool) (off : ℚ) (aa : AltAz)
    (hok : observer.altaz (normalizeTime time) target = Except.ok aa) :
    (plot_sky target observer time axArg skw ccw grid off).ax.thetagridPos =
        some (pyRange 0 360 45) ∧
      (plot_sky target observer time axArg skw ccw grid
          off).ax.thetagridLabels =
        some ((List.range 7).map (thetaLabel off)) := by
  refine ⟨?_, ?_⟩ <;> (simp only [plot_sky]; rw [hok])

/-! ### The plotted and warned index sets over the raw altitudes -/

theorem horizonLoop_warnings_raw (nm : String) (times : List Tm)
    (alts azs : List ℚ) :
    (horizonLoop nm times (alts.map radialTransform) (azs.map degToRad)).1 =
      ((List.range alts.length).filter
          (fun i => decide (alts.getD i 0 < 0))).map
        (fun i => belowHorizonMsg nm (times.getD i "")) := by
  rw [horizonLoop_fst, List.length_map]
  congr 1
  apply List.filter_congr
  intro i hi
  have hlt : i < alts.length := List.mem_range.mp hi
  rw [getD_map_of_lt _ _ _ hlt]
  simp only [radialTransform]
  apply decide_eq_decide.mpr
  constructor <;> intro h <;> linarith

theorem horizonLoop_azplot_raw (nm : String) (times : List Tm)
    (alts azs : List ℚ) :
    (horizonLoop nm times (alts.map radialTransform)
        (azs.map degToRad)).2.getD [] =
      ((List.range alts.length).filter
          (fun i => decide (0 ≤ alts.getD i 0))).map
        (fun i => degToRad (azs.getD i 0)) := by
  rw [horizonLoop_azplot, List.length_map]
  have hfil : (List.range alts.length).filter
        (fun i => !decide (91 < (alts.map radialTransform).getD i 0)) =
      (List.range alts.length).filter
        (fun i => decide (0 ≤ alts.getD i 0)) := by
    apply List.filter_congr
    intro i hi
    have hlt : i < alts.length := List.mem_range.mp hi
    rw [getD_map_of_lt _ _ _ hlt]
    simp only [radialTransform]
    rw [← decide_not]
    apply decide_eq_decide.mpr
    constructor
    · intro h
      have := not_lt.mp h
      linarith
    · intro h
      apply not_lt.mpr
      linarith
  rw [hfil]
  apply List.map_congr_left
  intro i _
  exact getD_map_degToRad azs i

theorem altplot_raw (alts : List ℚ) :
    (alts.map radialTransform).filter (fun a => decide (a ≤ 91)) =
      ((List.range alts.length).filter
          (fun i => decide (0 ≤ alts.getD i 0))).map
        (fun i => radialTransform (alts.getD i 0)) := by
  rw [filter_eq_map_filter_range, List.length_map]
  have hfil : (List.range alts.length).filter
        (fun i => decide ((alts.map radialTransform).getD i 0 ≤ 91)) =
      (List.range alts.length).filter
        (fun i => decide (0 ≤ alts.getD i 0)) := by
    apply List.filter_congr
    intro i hi
    have hlt : i < alts.length := List.mem_range.mp hi
    rw [getD_map_of_lt _ _ _ hlt]
    simp only [radialTransform]
    apply decide_eq_decide.mpr
    constructor <;> intro h <;> linarith
  rw [hfil]
  apply List.map_congr_left
  intro i hi
  have hlt : i < alts.length :=
    List.mem_range.mp (List.mem_filter.mp hi).1
  exact getD_map_of_lt _ _ _ hlt

/-! ### The claims -/

/-- Claim C1: on a successful position computation, plot_sky raises no
error; a time sample is excluded from the plotted set and produces
exactly one warning (carrying the display name — the target name, or
the Unknown Name fallback when there is none — and that sample's time
instant) exactly when its altitude is strictly negative, so a sample at
altitude exactly 0 degrees (transformed radial value exactly 91) is
plotted without warning, and when every sample is below the horizon the
plotted set is empty while the call still completes without error. -/
theorem claim1_below_horizon_iff (target : Target) (observer : Observer)
    (time : TimeArg) (axArg : Option Axes) (skw : Option Style)
    (ccw grid : Bool) (off : ℚ) (aa : AltAz)
    (hok : observer.altaz (normalizeTime time) target = Except.ok aa) :
    (plot_sky target observer time axArg skw ccw grid off).err = none ∧
    (plot_sky target observer time axArg skw ccw grid off).warnings =
      ((List.range aa.alt.length).filter
          (fun i => decide (aa.alt.getD i 0 < 0))).map
        (fun i => belowHorizonMsg (warnName (targetNameOf target))
          ((normalizeTime time).getD i "")) ∧
    (plot_sky target observer time axArg skw ccw grid off).ax.scatterData =
      (axArg.getD {}).scatterData ++
        [(((List.range aa.alt.length).filter
              (fun i => decide (0 ≤ aa.alt.getD i 0))).map
            (fun i => degToRad (aa.az.getD i 0)),
          ((List.range aa.alt.length).filter
              (fun i => decide (0 ≤ aa.alt.getD i 0))).map
            (fun i => radialTransform (aa.alt.getD i 0)),
          resolvedStyle skw target)] ∧
    ((∀ i, i < aa.alt.length → aa.alt.getD i 0 < 0) →
      ((List.range aa.alt.length).filter
          (fun i => decide (0 ≤ aa.alt.getD i 0))).map
        (fun i => degToRad (aa.az.getD i 0)) = []) := by
  refine ⟨plot_sky_ok_err target observer time axArg skw ccw grid off aa hok,
    ?_, ?_, ?_⟩
  · rw [plot_sky_ok_warnings target observer time axArg skw ccw grid off aa hok,
      horizonLoop_warnings_raw]
  · rw [plot_sky_ok_scatter target observer time axArg skw ccw grid off aa hok,
      horizonLoop_azplot_raw, altplot_raw]
  · intro h
    have hnil : (List.range aa.alt.length).filter
        (fun i => decide (0 ≤ aa.alt.getD i 0)) = [] := by
      rw [List.filter_eq_nil_iff]
      intro i hi
      have h2 := h i (List.mem_range.mp hi)
      simp only [List.getD_eq_getElem?_getD] at h2
      simp only [decide_eq_true_eq, not_le, List.getD_eq_getElem?_getD]
      exact h2
    rw [hnil, List.map_nil]

/-- Closed witness for claim C1, at a two-sample input with one sample
above and one below the horizon. -/
theorem claim1_witness :
    (obsMixed.altaz (normalizeTime timB) tgtVega = Except.ok aaMixed) ∧
    ((plot_sky tgtVega obsMixed timB none none true true 0).err = none ∧
    (plot_sky tgtVega obsMixed timB none none true true 0).warnings =
      ((List.range aaMixed.alt.length).filter
          (fun i => decide (aaMixed.alt.getD i 0 < 0))).map
        (fun i => belowHorizonMsg (warnName (targetNameOf tgtVega))
          ((normalizeTime timB).getD i "")) ∧
    (plot_sky tgtVega obsMixed timB none none true true 0).ax.scatterData =
      (Option.getD none ({} : Axes)).scatterData ++
        [(((List.range aaMixed.alt.length).filter
              (fun i => decide (0 ≤ aaMixed.alt.getD i 0))).map
            (fun i => degToRad (aaMixed.az.getD i 0)),
          ((List.range aaMixed.alt.length).filter
              (fun i => decide (0 ≤ aaMixed.alt.getD i 0))).map
            (fun i => radialTransform (aaMixed.alt.getD i 0)),
          resolvedStyle none tgtVega)] ∧
    ((∀ i, i < aaMixed.alt.length → aaMixed.alt.getD i 0 < 0) →
      ((List.range aaMixed.alt.length).filter
          (fun i => decide (0 ≤ aaMixed.alt.getD i 0))).map
        (fun i => degToRad (aaMixed.az.getD i 0)) = [])) :=
  ⟨rfl, claim1_below_horizon_iff tgtVega obsMixed timB none none true true 0
    aaMixed rfl⟩

/-- Claim C2: every plotted sample reaches the scatter primitive with
radial coordinate 91 minus its altitude in degrees (so altitude 90
maps to radius 1 and altitude 0 to radius 91) and angular coordinate
its azimuth converted from degrees to radians. -/
theorem claim2_plot_transform (target : Target) (observer : Observer)
    (time : TimeArg) (axArg : Option Axes) (skw : Option Style)
    (ccw grid : Bool) (off : ℚ) (aa : AltAz)
    (hok : observer.altaz (normalizeTime time) target = Except.ok aa) :
    (plot_sky target observer time axArg skw ccw grid off).ax.scatterData =
      (axArg.getD {}).scatterData ++
        [(((List.range aa.alt.length).filter
              (fun i => decide (0 ≤ aa.alt.getD i 0))).map
            (fun i => degToRad (aa.az.getD i 0)),
          ((List.range aa.alt.length).filter
              (fun i => decide (0 ≤ aa.alt.getD i 0))).map
            (fun i => 91 - aa.alt.getD i 0),
          resolvedStyle skw target)] ∧
    radialTransform 90 = 1 ∧ radialTransform 0 = 91 := by
  refine ⟨?_, by norm_num [radialTransform], by norm_num [radialTransform]⟩
  rw [plot_sky_ok_scatter target observer time axArg skw ccw grid off aa hok,
    horizonLoop_azplot_raw, altplot_raw]
  simp only [radialTransform]

/-- Closed witness for claim C2, at a single sample of altitude 45 and
azimuth 120 degrees. -/
theorem claim2_witness :
    (obsUp.altaz (normalizeTime timA) tgtVega = Except.ok aaUp) ∧
    ((plot_sky tgtVega obsUp timA none none true true 0).ax.scatterData =
      (Option.getD none ({} : Axes)).scatterData ++
        [(((List.range aaUp.alt.length).filter
              (fun i => decide (0 ≤ aaUp.alt.getD i 0))).map
            (fun i => degToRad (aaUp.az.getD i 0)),
          ((List.range aaUp.alt.length).filter
              (fun i => decide (0 ≤ aaUp.alt.getD i 0))).map
            (fun i => 91 - aaUp.alt.getD i 0),
          resolvedStyle none tgtVega)] ∧
    radialTransform 90 = 1 ∧ radialTransform 0 = 91) :=
  ⟨rfl, claim2_plot_transform tgtVega obsUp timA none none true true 0
    aaUp rfl⟩

/-- Claim C3 counterexample: for the negative offset of -50 degrees,
the chunk-0 tick-label angle is -50, which does not lie in the
interval from 0 inclusive to 360 exclusive, because the normalization
loop only subtracts 360 from values at or above 360 and never lifts a
negative value. -/
theorem claim3_counterexample :
    ¬ (0 ≤ labelAngle (-50) 0 ∧ labelAngle (-50) 0 < 360) := by
  have h : labelAngle (-50) 0 = -50 := by
    have harg : ((-50 : ℚ) + ((0 : ℕ) : ℚ) * 45) = -50 := by norm_num
    rw [labelAngle, harg, wrap360]
    norm_num
  intro hc
  rw [h] at hc
  obtain ⟨h0, _⟩ := hc
  linarith

/-- Claim C3 as amended: for every non-negative azimuthLabelOffsetDeg,
every computed tick-label angle (the offset plus 45 degrees times the
tick index, after the wrapping normalization) lies in the interval
from 0 inclusive to 360 exclusive; a negative offset can leave the
angle below 0. -/
theorem claim3_nonneg_offset (off : ℚ) (hoff : 0 ≤ off) (chunk : ℕ) :
    0 ≤ labelAngle off chunk ∧ labelAngle off chunk < 360 := by
  constructor
  · apply wrap360_nonneg
    positivity
  · exact wrap360_lt _

/-- Closed witness for the amended claim C3 at offset 30, chunk 5. -/
theorem claim3_witness :
    (0 : ℚ) ≤ 30 ∧ (0 ≤ labelAngle 30 5 ∧ labelAngle 30 5 < 360) :=
  ⟨by norm_num, claim3_nonneg_offset 30 (by norm_num) 5⟩

/-- Claim C4 counterexample: at a concrete successful call the
position capability is invoked twice (once for altitude on line 114
and once for azimuth on line 116), not exactly once. -/
theorem claim4_counterexample :
    ¬ ((plot_sky tgtVega obsUp timA none none true true 0).altazLog.length
        = 1) := by
  have h : (plot_sky tgtVega obsUp timA none none true true 0).altazLog =
      [normalizeTime timA, normalizeTime timA] :=
    plot_sky_ok_log tgtVega obsUp timA none none true true 0 aaUp rfl
  rw [h]
  simp

/-- Claim C4 as amended: in every invocation whose position
computation succeeds, observer.altaz is invoked exactly twice — once
for altitude and once for azimuth — each time as a single batch call
over the full normalized time-sample sequence. -/
theorem claim4_two_batch_calls (target : Target) (observer : Observer)
    (time : TimeArg) (axArg : Option Axes) (skw : Option Style)
    (ccw grid : Bool) (off : ℚ) (aa : AltAz)
    (hok : observer.altaz (normalizeTime time) target = Except.ok aa) :
    (plot_sky target observer time axArg skw ccw grid off).altazLog =
      [normalizeTime time, normalizeTime time] ∧
    (plot_sky target observer time axArg skw ccw grid off).altazLog.length
      = 2 := by
  have h := plot_sky_ok_log target observer time axArg skw ccw grid off aa hok
  exact ⟨h, by rw [h]; rfl⟩

/-- Closed witness for the amended claim C4. -/
theorem claim4_witness :
    (obsUp.altaz (normalizeTime timA) tgtVega = Except.ok aaUp) ∧
    ((plot_sky tgtVega obsUp timA none none true true 0).altazLog =
      [normalizeTime timA, normalizeTime timA] ∧
    (plot_sky tgtVega obsUp timA none none true true 0).altazLog.length
      = 2) :=
  ⟨rfl, claim4_two_batch_calls tgtVega obsUp timA none none true true 0
    aaUp rfl⟩

/-- Claim C5: a scalar time instant and the one-element array holding
the same instant produce identical output: same axes configuration,
same plotted points, same warnings, same call log, same error state. -/
theorem claim5_scalar_array (target : Target) (observer : Observer)
    (axArg : Option Axes) (skw : Option Style) (ccw grid : Bool) (off : ℚ)
    (t : Tm) :
    plot_sky target observer (.scalar t) axArg skw ccw grid off =
      plot_sky target observer (.array [t]) axArg skw ccw grid off := rfl

/-- Claim C6: on every successful call the angular grid is set at
45-degree spaced positions over a full revolution with the seven
computed labels, each carrying the normalized azimuth value, and the
labels at indices 0, 2, 4, 6 carry the compass letters N, E, S, W
prefixed to the azimuth value. -/
theorem claim6_theta_labels (target : Target) (observer : Observer)
    (time : TimeArg) (axArg : Option Axes) (skw : Option Style)
    (ccw grid : Bool) (off : ℚ) (aa : AltAz)
    (hok : observer.altaz (normalizeTime time) target = Except.ok aa) :
    (plot_sky target observer time axArg skw ccw grid off).ax.thetagridPos =
      some (pyRange 0 360 45) ∧
    pyRange 0 360 45 = [0, 45, 90, 135, 180, 225, 270, 315] ∧
    ∃ L, (plot_sky target observer time axArg skw ccw grid
          off).ax.thetagridLabels = some L ∧
      L.length = 7 ∧
      L = [thetaLabel off 0, thetaLabel off 1, thetaLabel off 2,
           thetaLabel off 3, thetaLabel off 4, thetaLabel off 5,
           thetaLabel off 6] ∧
      thetaLabel off 0 =
        "N " ++ "\n" ++ toString (labelAngle off 0) ++ degSign ++ " Az" ∧
      thetaLabel off 2 = "E" ++ "\n" ++ toString (labelAngle off 2) ++ degSign ∧
      thetaLabel off 4 = "S" ++ "\n" ++ toString (labelAngle off 4) ++ degSign ∧
      thetaLabel off 6 = "W" ++ "\n" ++ toString (labelAngle off 6) ++ degSign ∧
      thetaLabel off 1 = toString (labelAngle off 1) ++ degSign ∧
      thetaLabel off 3 = toString (labelAngle off 3) ++ degSign ∧
      thetaLabel off 5 = toString (labelAngle off 5) ++ degSign := by
  obtain ⟨hpos, hlab⟩ :=
    plot_sky_ok_thetagrids target observer time axArg skw ccw grid off aa hok
  exact ⟨hpos, rfl,
    (List.range 7).map (thetaLabel off),
    hlab, rfl, rfl, rfl, rfl, rfl, rfl, rfl, rfl, rfl⟩

/-- Closed witness for claim C6 at offset 0. -/
theorem claim6_witness :
    (obsUp.altaz (normalizeTime timA) tgtVega = Except.ok aaUp) ∧
    ((plot_sky tgtVega obsUp timA none none true true 0).ax.thetagridPos =
      some (pyRange 0 360 45) ∧
    pyRange 0 360 45 = [0, 45, 90, 135, 180, 225, 270, 315] ∧
    ∃ L, (plot_sky tgtVega obsUp timA none none true true
          0).ax.thetagridLabels = some L ∧
      L.length = 7 ∧
      L = [thetaLabel 0 0, thetaLabel 0 1, thetaLabel 0 2, thetaLabel 0 3,
           thetaLabel 0 4, thetaLabel 0 5, thetaLabel 0 6] ∧
      thetaLabel 0 0 =
        "N " ++ "\n" ++ toString (labelAngle 0 0) ++ degSign ++ " Az" ∧
      thetaLabel 0 2 = "E" ++ "\n" ++ toString (labelAngle 0 2) ++ degSign ∧
      thetaLabel 0 4 = "S" ++ "\n" ++ toString (labelAngle 0 4) ++ degSign ∧
      thetaLabel 0 6 = "W" ++ "\n" ++ toString (labelAngle 0 6) ++ degSign ∧
      thetaLabel 0 1 = toString (labelAngle 0 1) ++ degSign ∧
      thetaLabel 0 3 = toString (labelAngle 0 3) ++ degSign ∧
      thetaLabel 0 5 = toString (labelAngle 0 5) ++ degSign) :=
  ⟨rfl, claim6_theta_labels tgtVega obsUp timA none none true true 0
    aaUp rfl⟩

/-- Claim C7: on every successful call the radial limits span 1 to 91
and the radial grid is set at the seven radii of range(1, 106, 15)
with the seven fixed labels, placed at the offset angle -45. -/
theorem claim7_radial_axis (target : Target) (observer : Observer)
    (time : TimeArg) (axArg : Option Axes) (skw : Option Style)
    (ccw grid : Bool) (off : ℚ) (aa : AltAz)
    (hok : observer.altaz (normalizeTime time) target = Except.ok aa) :
    (plot_sky target observer time axArg skw ccw grid off).ax.rlim =
      some (1, 91) ∧
    (plot_sky target observer time axArg skw ccw grid off).ax.rgridPos =
      some (pyRange 1 106 15) ∧
    pyRange 1 106 15 = [1, 16, 31, 46, 61, 76, 91] ∧
    (plot_sky target observer time axArg skw ccw grid off).ax.rgridLabels =
      some r_labels ∧
    r_labels = ["90" ++ degSign, "", "60" ++ degSign, "", "30" ++ degSign,
      "", "0" ++ degSign ++ " Alt."] ∧
    r_labels.length = 7 ∧
    (plot_sky target observer time axArg skw ccw grid off).ax.rgridAngle =
      some (-45) := by
  obtain ⟨hp, hl, ha⟩ :=
    plot_sky_ok_rgrids target observer time axArg skw ccw grid off aa hok
  exact ⟨plot_sky_ok_rlim target observer time axArg skw ccw grid off aa hok,
    hp, rfl, hl, rfl, rfl, ha⟩

/-- Closed witness for claim C7. -/
theorem claim7_witness :
    (obsUp.altaz (normalizeTime timA) tgtVega = Except.ok aaUp) ∧
    ((plot_sky tgtVega obsUp timA none none true true 0).ax.rlim =
      some (1, 91) ∧
    (plot_sky tgtVega obsUp timA none none true true 0).ax.rgridPos =
      some (pyRange 1 106 15) ∧
    pyRange 1 106 15 = [1, 16, 31, 46, 61, 76, 91] ∧
    (plot_sky tgtVega obsUp timA none none true true 0).ax.rgridLabels =
      some r_labels ∧
    r_labels = ["90" ++ degSign, "", "60" ++ degSign, "", "30" ++ degSign,
      "", "0" ++ degSign ++ " Alt."] ∧
    r_labels.length = 7 ∧
    (plot_sky tgtVega obsUp timA none none true true 0).ax.rgridAngle =
      some (-45)) :=
  ⟨rfl, claim7_radial_axis tgtVega obsUp timA none none true true 0
    aaUp rfl⟩

/-- Claim C8: a failure of the position-computation capability
propagates uncaught and untranslated, the surface is left exactly as it
was (in particular nothing was scattered), no warning is emitted, and
the capability was consulted only once with no retry. -/
theorem claim8_failure_propagation (target : Target) (observer : Observer)
    (time : TimeArg) (axArg : Option Axes) (skw : Option Style)
    (ccw grid : Bool) (off : ℚ) (e : String)
    (herr : observer.altaz (normalizeTime time) target = Except.error e) :
    (plot_sky target observer time axArg skw ccw grid off).err = some e ∧
    (plot_sky target observer time axArg skw ccw grid off).ax =
      axArg.getD {} ∧
    (plot_sky target observer time axArg skw ccw grid off).warnings = [] ∧
    (plot_sky target observer time axArg skw ccw grid off).altazLog =
      [normalizeTime time] := by
  refine ⟨?_, ?_, ?_, ?_⟩ <;> (simp only [plot_sky]; rw [herr])

/-- Closed witness for claim C8 with a failing observer capability. -/
theorem claim8_witness :
    (obsFail.altaz (normalizeTime timA) tgtVega =
      Except.error "unresolvable target") ∧
    ((plot_sky tgtVega obsFail timA none none true true 0).err =
      some "unresolvable target" ∧
    (plot_sky tgtVega obsFail timA none none true true 0).ax =
      Option.getD none ({} : Axes) ∧
    (plot_sky tgtVega obsFail timA none none true true 0).warnings = [] ∧
    (plot_sky tgtVega obsFail timA none none true true 0).altazLog =
      [normalizeTime timA]) :=
  ⟨rfl, claim8_failure_propagation tgtVega obsFail timA none none true true 0
    "unresolvable target" rfl⟩

/-- Claim C9: the plotted azimuth sequence (built in the warning loop)
and the plotted altitude sequence (built by the boolean mask on the
transformed altitudes) are maps over one common strictly increasing
list of original sample indices, hence have equal length and pair the
azimuth and altitude of the same original sample, in sample order. -/
theorem claim9_aligned (target : Target) (observer : Observer)
    (time : TimeArg) (axArg : Option Axes) (skw : Option Style)
    (ccw grid : Bool) (off : ℚ) (aa : AltAz)
    (hok : observer.altaz (normalizeTime time) target = Except.ok aa) :
    ∃ idx : List ℕ,
      List.Pairwise (· < ·) idx ∧
      (∀ j ∈ idx, j < aa.alt.length) ∧
      (plot_sky target observer time axArg skw ccw grid off).ax.scatterData =
        (axArg.getD {}).scatterData ++
          [(idx.map (fun j => degToRad (aa.az.getD j 0)),
            idx.map (fun j => radialTransform (aa.alt.getD j 0)),
            resolvedStyle skw target)] ∧
      (idx.map (fun j => degToRad (aa.az.getD j 0))).length =
        (idx.map (fun j => radialTransform (aa.alt.getD j 0))).length := by
  refine ⟨(List.range aa.alt.length).filter
    (fun i => decide (0 ≤ aa.alt.getD i 0)), ?_, ?_, ?_, ?_⟩
  · exact (List.pairwise_lt_range aa.alt.length).sublist
      (List.filter_sublist _)
  · intro j hj
    exact List.mem_range.mp (List.mem_filter.mp hj).1
  · rw [plot_sky_ok_scatter target observer time axArg skw ccw grid off aa hok,
      horizonLoop_azplot_raw, altplot_raw]
  · simp

/-- Closed witness for claim C9 at the mixed two-sample input. -/
theorem claim9_witness :
    (obsMixed.altaz (normalizeTime timB) tgtVega = Except.ok aaMixed) ∧
    (∃ idx : List ℕ,
      List.Pairwise (· < ·) idx ∧
      (∀ j ∈ idx, j < aaMixed.alt.length) ∧
      (plot_sky tgtVega obsMixed timB none none true true 0).ax.scatterData =
        (Option.getD none ({} : Axes)).scatterData ++
          [(idx.map (fun j => degToRad (aaMixed.az.getD j 0)),
            idx.map (fun j => radialTransform (aaMixed.alt.getD j 0)),
            resolvedStyle none tgtVega)] ∧
      (idx.map (fun j => degToRad (aaMixed.az.getD j 0))).length =
        (idx.map (fun j => radialTransform (aaMixed.alt.getD j 0))).length) :=
  ⟨rfl, claim9_aligned tgtVega obsMixed timB none none true true 0
    aaMixed rfl⟩

/-- Claim C10: every successful call sets the zero-angle reference to
North, but the angular direction of increase is written only when
north_to_east_ccw is false; with the default true flag the direction
attribute of the supplied surface is left unchanged, so a reused
surface previously configured clockwise stays clockwise. -/
theorem claim10_theta_frame (target : Target) (observer : Observer)
    (time : TimeArg) (axArg : Option Axes) (skw : Option Style)
    (grid : Bool) (off : ℚ) (aa : AltAz)
    (hok : observer.altaz (normalizeTime time) target = Except.ok aa) :
    (∀ ccw : Bool,
      (plot_sky target observer time axArg skw ccw grid off).ax.thetaZeroLoc =
        some "N") ∧
    (plot_sky target observer time axArg skw false grid off).ax.thetaDir =
      -1 ∧
    (plot_sky target observer time axArg skw true grid off).ax.thetaDir =
      (axArg.getD {}).thetaDir :=
  ⟨fun ccw =>
      plot_sky_ok_zeroloc target observer time axArg skw ccw grid off aa hok,
    plot_sky_ok_thetaDir_cw target observer time axArg skw grid off aa hok,
    plot_sky_ok_thetaDir_ccw target observer time axArg skw grid off aa hok⟩

/-- Closed witness for claim C10 on a reused clockwise surface: with
the default flag the direction attribute stays that of the supplied
surface, which is clockwise (-1). -/
theorem claim10_witness :
    (obsUp.altaz (normalizeTime timA) tgtVega = Except.ok aaUp) ∧
    ((∀ ccw : Bool,
      (plot_sky tgtVega obsUp timA (some axClockwise) none ccw true
          0).ax.thetaZeroLoc = some "N") ∧
    (plot_sky tgtVega obsUp timA (some axClockwise) none false true
        0).ax.thetaDir = -1 ∧
    (plot_sky tgtVega obsUp timA (some axClockwise) none true true
        0).ax.thetaDir = (Option.getD (some axClockwise) {}).thetaDir) ∧
    axClockwise.thetaDir = -1 :=
  ⟨rfl, claim10_theta_frame tgtVega obsUp timA (some axClockwise) none true 0
    aaUp rfl, rfl⟩

end SkyPlot
